import Mathlib

/-
  Formal model of the two AWS Lambda handlers of this repository
  (lambda_router.py and lambda_actions.py), as a shallow embedding:

  * pure Python functions become Lean functions;
  * the RDS-backed case table becomes an explicit value of type Store
    (a list of rows), and every SQL statement of the source becomes a
    function from Store to Store resp. to query results;
  * Python exceptions become an explicit PyExc value threaded through
    Except; a raised-and-not-caught exception of the source is an
    Except.error of the model;
  * CPython specifics that the source relies on are modelled explicitly:
    string hashing (SipHash-1-3 keyed by the per-process hash secret,
    as in CPython 3.11+, with hash("") = 0 and the -1 -> -2 adjustment),
    truthiness of strings/lists/dicts, and the "or" operator on
    possibly-missing values.

  All definitions are translated from the source files; comments cite
  the source location they embed.
-/

/-- Python exception kinds that the modelled code can raise.  NameError is
raised when a global name fails to resolve (lambda_actions.py resolves the
name "log" inside its class methods although only "logger" and "get_logger"
exist at module scope).  ClientError is botocore's error for a failed AWS
call. -/
inductive PyExc where
  | nameError : PyExc
  | clientError : PyExc
  | typeError : PyExc
  | keyError : PyExc
  | attributeError : PyExc
deriving DecidableEq, Repr

/-- Truthiness of an optional string, as Python evaluates
"if client_name_regex:" — None and the empty string are falsy
(lambda_router.py lines 113-119). -/
def pyTruthyOptStr : Option String → Bool
  | none => false
  | some s => s ≠ ""

/-- Rendering of an optional string inside a Python f-string: None prints
as "None" (relevant to f"session_(...)_(thread_ts)" in lambda_router.py
line 171 when thread_ts is absent). -/
def pyFStrOpt : Option String → String
  | none => "None"
  | some s => s

/- ===========================================================
   CPython string hashing: SipHash-1-3 keyed by the per-process
   128-bit hash secret (PYTHONHASHSEED).  Used by lambda_router.py
   line 122: return f"client_{hash(text) % 10000}".
   =========================================================== -/

/-- Reduction of a natural number to 64 bits. -/
def mask64 (x : Nat) : Nat := x % (2 ^ 64)

/-- Left rotation of a 64-bit word. -/
def rotl64 (x n : Nat) : Nat :=
  (mask64 (x <<< n)) ||| (x >>> (64 - n))

/-- Internal state of SipHash: four 64-bit words. -/
structure SipState where
  v0 : Nat
  v1 : Nat
  v2 : Nat
  v3 : Nat
deriving DecidableEq, Repr

/-- One SipHash round. -/
def sipRound (s : SipState) : SipState :=
  let v0 := mask64 (s.v0 + s.v1)
  let v1 := rotl64 s.v1 13
  let v1 := v1 ^^^ v0
  let v0 := rotl64 v0 32
  let v2 := mask64 (s.v2 + s.v3)
  let v3 := rotl64 s.v3 16
  let v3 := v3 ^^^ v2
  let v0 := mask64 (v0 + v3)
  let v3 := rotl64 v3 21
  let v3 := v3 ^^^ v0
  let v2 := mask64 (v2 + v1)
  let v1 := rotl64 v1 17
  let v1 := v1 ^^^ v2
  let v2 := rotl64 v2 32
  ⟨v0, v1, v2, v3⟩

/-- Mixing of one 8-byte message word into the state (SipHash-1-3: one
compression round per word). -/
def sipCompress (s : SipState) (m : Nat) : SipState :=
  let s := { s with v3 := s.v3 ^^^ m }
  let s := sipRound s
  { s with v0 := s.v0 ^^^ m }

/-- Little-endian value of a byte list (first byte least significant). -/
def leWord (bs : List Nat) : Nat :=
  bs.foldr (fun b acc => b + 256 * acc) 0

/-- Consumption of all full 8-byte words of the input; returns the state
after mixing them in together with the remaining tail (fewer than 8
bytes). -/
def sipBlocks : SipState → List Nat → SipState × List Nat
  | s, b0 :: b1 :: b2 :: b3 :: b4 :: b5 :: b6 :: b7 :: rest =>
      sipBlocks (sipCompress s (leWord [b0, b1, b2, b3, b4, b5, b6, b7])) rest
  | s, rest => (s, rest)

/-- SipHash-1-3 of a byte string under a 128-bit key (k0, k1), as used by
CPython for str hashing since 3.11. -/
def siphash13 (k0 k1 : Nat) (data : List Nat) : Nat :=
  let k0 := mask64 k0
  let k1 := mask64 k1
  let s0 : SipState :=
    ⟨k0 ^^^ 0x736f6d6570736575, k1 ^^^ 0x646f72616e646f6d,
     k0 ^^^ 0x6c7967656e657261, k1 ^^^ 0x7465646279746573⟩
  let (s1, tail) := sipBlocks s0 data
  let b := mask64 (((data.length % 256) <<< 56) ||| leWord tail)
  let s2 := sipCompress s1 b
  let s3 := { s2 with v2 := s2.v2 ^^^ 0xff }
  let s4 := sipRound (sipRound (sipRound s3))
  s4.v0 ^^^ s4.v1 ^^^ s4.v2 ^^^ s4.v3

/-- Byte buffer that CPython hashes for a str: for ASCII text this is the
one-byte-per-character buffer, which coincides with the UTF-8 encoding.
The model is exact for ASCII text (all text exercised here is ASCII). -/
def strHashBytes (s : String) : List Nat :=
  s.data.map Char.toNat

/-- CPython hash() of a str under the per-process hash secret (k0, k1):
0 for the empty string, otherwise SipHash-1-3 of the character buffer
reinterpreted as a signed 64-bit integer, with -1 adjusted to -2.
The key pair is the process-wide randomised secret: two interpreter
processes generally run with different keys. -/
def pyHashStr (k0 k1 : Nat) (s : String) : Int :=
  let bs := strHashBytes s
  if bs.isEmpty then 0
  else
    let h := siphash13 k0 k1 bs
    let signed : Int := if h < 2 ^ 63 then (h : Int) else (h : Int) - 2 ^ 64
    if signed = -1 then -2 else signed

/- ===========================================================
   MessageTransformer client-id extraction
   (lambda_router.py lines 110-143).

   The three regular expressions of _extract_client_id_with_regex are
   embedded as dedicated matchers with Python re.search semantics:
   leftmost starting position wins, quantifiers are greedy with
   backtracking.  The character classes are modelled over ASCII
   (the class [A-Za-z0-9] is ASCII by definition; the Python class
   \s additionally matches some non-ASCII whitespace, which no text
   considered here contains).
   =========================================================== -/

/-- ASCII decimal digit. -/
def isAsciiDigit (c : Char) : Bool :=
  48 ≤ c.toNat && c.toNat ≤ 57

/-- ASCII letter. -/
def isAsciiAlpha (c : Char) : Bool :=
  (65 ≤ c.toNat && c.toNat ≤ 90) || (97 ≤ c.toNat && c.toNat ≤ 122)

/-- Character of the regex class [A-Za-z0-9]. -/
def isAlnum (c : Char) : Bool :=
  isAsciiAlpha c || isAsciiDigit c

/-- Character of the regex class \s (ASCII part): space, tab, newline,
carriage return, vertical tab, form feed. -/
def isPySpace (c : Char) : Bool :=
  c.toNat = 32 || c.toNat = 9 || c.toNat = 10 || c.toNat = 13 ||
  c.toNat = 11 || c.toNat = 12

/-- Character of the class [:\s] (the separator of the first pattern). -/
def isSepChar (c : Char) : Bool :=
  c = ':' || isPySpace c

/-- Character of the class [A-Za-z0-9\s] (the capture group of the first
pattern). -/
def isNameChar (c : Char) : Bool :=
  isAlnum c || isPySpace c

/-- ASCII lowercasing, for the IGNORECASE comparison with the literal
"client". -/
def lowerChar (c : Char) : Char :=
  if 65 ≤ c.toNat && c.toNat ≤ 90 then Char.ofNat (c.toNat + 32) else c

/-- Backtracking over the length k of the text consumed by the greedy
separator [:\s]+ of the pattern client[:\s]+([A-Za-z0-9\s]+): the regex
engine first lets the separator take its maximal run and shortens it one
character at a time until the capture group [A-Za-z0-9\s]+ can match at
least one character; rest is the text following the literal "client". -/
def pat1Backtrack : Nat → List Char → Option (List Char)
  | 0, _ => none
  | k + 1, rest =>
      let grp := (rest.drop (k + 1)).takeWhile isNameChar
      if grp.isEmpty then pat1Backtrack k rest else some grp

/-- Match of the pattern client[:\s]+([A-Za-z0-9\s]+) (case-insensitive)
anchored at the current position; returns the capture group. -/
def matchPat1At (cs : List Char) : Option (List Char) :=
  if (cs.take 6).map lowerChar = "client".data then
    let rest := cs.drop 6
    let sep := rest.takeWhile isSepChar
    if sep.isEmpty then none else pat1Backtrack sep.length rest
  else none

/-- re.search of the first pattern: the match at the leftmost admissible
starting position wins. -/
def searchPat1 : List Char → Option (List Char)
  | [] => none
  | c :: cs =>
      match matchPat1At (c :: cs) with
      | some grp => some grp
      | none => searchPat1 cs

/-- re.search of @([A-Za-z0-9]+) resp. #([A-Za-z0-9]+): leftmost symbol
followed by at least one alphanumeric character; the greedy group takes
the maximal alphanumeric run. -/
def searchSym (sym : Char) : List Char → Option (List Char)
  | [] => none
  | c :: cs =>
      if c = sym then
        let grp := cs.takeWhile isAlnum
        if grp.isEmpty then searchSym sym cs else some grp
      else searchSym sym cs

/-- The three patterns of _extract_client_id_with_regex
(lambda_router.py lines 128-132), in source order. -/
inductive ClientPattern where
  | pat1 : ClientPattern
  | pat2 : ClientPattern
  | pat3 : ClientPattern
deriving DecidableEq, Repr

/-- List client_patterns of the source, in order. -/
def client_patterns : List ClientPattern :=
  [ClientPattern.pat1, ClientPattern.pat2, ClientPattern.pat3]

/-- re.search(pattern, text, re.IGNORECASE), returning the first capture
group of the match (match.group(1), before .strip()). -/
def re_search : ClientPattern → String → Option String
  | ClientPattern.pat1, t => (searchPat1 t.data).map String.mk
  | ClientPattern.pat2, t => (searchSym '@' t.data).map String.mk
  | ClientPattern.pat3, t => (searchSym '#' t.data).map String.mk

/-- Python str.strip(): removal of leading and trailing whitespace. -/
def pyStrip (s : String) : String :=
  String.mk (((s.data.dropWhile isPySpace).reverse.dropWhile isPySpace).reverse)

/-- Loop body of _extract_client_id_with_regex (lambda_router.py lines
134-138): for each pattern in order, if re.search matches, return
match.group(1).strip(); after the loop return None. -/
def regex_loop : List ClientPattern → String → Option String
  | [], _ => none
  | p :: ps, t =>
      match re_search p t with
      | some grp => some (pyStrip grp)
      | none => regex_loop ps t

/-- MessageTransformer._extract_client_id_with_regex
(lambda_router.py lines 124-138). -/
def extract_client_id_with_regex (t : String) : Option String :=
  regex_loop client_patterns t

/-- MessageTransformer._extract_client_id_with_nlp (lambda_router.py lines
140-143): placeholder, always returns None. -/
def extract_client_id_with_nlp (_t : String) : Option String :=
  none

/-- MessageTransformer._extract_client_id (lambda_router.py lines
110-122): NLP path first, then the regex patterns, then the fallback
"client_" + str(hash(text) % 10000).  Both intermediate results are
tested for Python truthiness (None and "" are falsy), and the fallback
depends on the per-process hash secret (k0, k1). -/
def extract_client_id (k0 k1 : Nat) (text : String) : String :=
  let nlp := extract_client_id_with_nlp text
  if pyTruthyOptStr nlp then nlp.getD ""
  else
    let rgx := extract_client_id_with_regex text
    if pyTruthyOptStr rgx then rgx.getD ""
    else "client_" ++ toString ((pyHashStr k0 k1 text).emod 10000)

/- ===========================================================
   Untyped Python values.

   transform_slack_message consumes an arbitrary decoded-JSON payload
   and the case rows carry an open-ended client_data JSON value, so
   these are modelled by an untyped value type with the Python dict
   and attribute operations the source uses.
   =========================================================== -/

/-- Untyped Python/JSON value: None, a string, an integer, a list or a
dict (string keys, as produced by json.loads). -/
inductive PyVal where
  | pynone : PyVal
  | pystr : String → PyVal
  | pyint : Int → PyVal
  | pylist : List PyVal → PyVal
  | pydict : List (String × PyVal) → PyVal

/-- Lookup in a dict, later bindings overriding earlier ones (Python dict
construction and json.loads keep the last occurrence of a key). -/
def pyLookup (kvs : List (String × PyVal)) (k : String) : Option PyVal :=
  kvs.foldl (fun acc kv => if kv.1 = k then some kv.2 else acc) none

/-- Python d.get(k, default).  Only dicts have a get method; on any other
value the attribute lookup raises AttributeError. -/
def pyGet (v : PyVal) (k : String) (dflt : PyVal) : Except PyExc PyVal :=
  match v with
  | PyVal.pydict kvs => Except.ok ((pyLookup kvs k).getD dflt)
  | _ => Except.error PyExc.attributeError

/-- Substring test, for Python "k in s" on strings. -/
def strContains (hay needle : List Char) : Bool :=
  match hay with
  | [] => needle.isEmpty
  | _ :: rest => needle.isPrefixOf hay || strContains rest needle

/-- Python "k in v" for a string k: key containment for dicts, substring
test for strings, elementwise equality for lists (a non-string element is
simply unequal), TypeError for None. -/
def pyContains (k : String) (v : PyVal) : Except PyExc Bool :=
  match v with
  | PyVal.pydict kvs => Except.ok ((pyLookup kvs k).isSome)
  | PyVal.pystr s => Except.ok (strContains s.data k.data)
  | PyVal.pylist xs =>
      Except.ok (xs.any (fun x =>
        match x with
        | PyVal.pystr s => s = k
        | _ => false))
  | _ => Except.error PyExc.typeError

/-- Python iteration over v: a list yields its elements, a string its
one-character substrings, a dict its keys; None is not iterable. -/
def pyIter (v : PyVal) : Except PyExc (List PyVal) :=
  match v with
  | PyVal.pylist xs => Except.ok xs
  | PyVal.pystr s => Except.ok (s.data.map (fun c => PyVal.pystr (String.mk [c])))
  | PyVal.pydict kvs => Except.ok (kvs.map (fun kv => PyVal.pystr kv.1))
  | _ => Except.error PyExc.typeError

/-- Python v[k] for a string key: dict item lookup (KeyError when absent);
on a non-dict a string index raises TypeError. -/
def pySubscript (v : PyVal) (k : String) : Except PyExc PyVal :=
  match v with
  | PyVal.pydict kvs =>
      match pyLookup kvs k with
      | some x => Except.ok x
      | none => Except.error PyExc.keyError
  | _ => Except.error PyExc.typeError

/-- Python truthiness of a value: None, "", [] and the empty dict are
falsy. -/
def pyTruthy : PyVal → Bool
  | PyVal.pynone => false
  | PyVal.pystr s => s ≠ ""
  | PyVal.pyint n => n ≠ 0
  | PyVal.pylist xs => ¬ xs.isEmpty
  | PyVal.pydict kvs => ¬ kvs.isEmpty

/-- Python "a or b": a if a is truthy, else b (lambda_router.py line 89,
thread_ts = event.get('thread_ts') or event.get('ts')). -/
def pyOrVal (a b : PyVal) : PyVal :=
  if pyTruthy a then a else b

/- ===========================================================
   Structured payload and case rows.
   =========================================================== -/

/-- Structured payload built by transform_slack_message (lambda_router.py
lines 92-101) in its typed form, used by the Bedrock invocation and by
persist_case_state (the router stores the whole payload as the new
conversation message).  thread_ts is Optional: event.get('thread_ts') or
event.get('ts') is None when both keys are absent or falsy. -/
structure StructuredPayload where
  client_id : String
  text : String
  attachments : List String
  user_id : String
  thread_ts : Option String
  channel_id : String
  timestamp : String
deriving DecidableEq, Repr

/-- Row of the cases table.  Column values are modelled decoded: the JSON
text columns missing_fields, tags and conversation hold their parsed
values (json.dumps/json.loads round-trip), client_data holds an arbitrary
JSON value, and the NOW() timestamps are represented by a Nat supplied by
the caller of each write. -/
structure CaseRow where
  case_id : String
  client_id : String
  status : String
  created_at : Nat
  updated_at : Nat
  updated_by : String
  brief_summary : String
  thread_ts : String
  channel_id : String
  client_data : PyVal
  tags : List String
  missing_fields : List String
  conversation : List StructuredPayload

/-- The cases table. -/
abbrev Store := List CaseRow

/- ===========================================================
   Router DatabaseManager (lambda_router.py lines 418-480).
   =========================================================== -/

/-- Response of rds-data execute_statement as the router sees it:
either the empty dict that execute_query substitutes on failure
(falsy), or a real response carrying a records list (truthy even when
the list is empty).  The record type varies per query. -/
inductive RDSResp (α : Type) where
  | emptyDict : RDSResp α
  | resp : List α → RDSResp α

/-- DatabaseManager.execute_query (lambda_router.py lines 426-438): the
underlying call either returns a response or raises; every exception is
caught, logged and turned into the empty dict. -/
def execute_query {α : Type} (raw : Except PyExc (RDSResp α)) : RDSResp α :=
  match raw with
  | Except.ok r => r
  | Except.error _ => RDSResp.emptyDict

/-- Record returned by the SELECT of fetch_case_state: the decoded
missing_fields and conversation columns of one row. -/
def stateRecordOf (r : CaseRow) : List String × List StructuredPayload :=
  (r.missing_fields, r.conversation)

/-- Execution of the SELECT of fetch_case_state against the store: all
rows whose case_id matches, in table order. -/
def selectCaseState (s : Store) (case_id : String) :
    RDSResp (List String × List StructuredPayload) :=
  RDSResp.resp ((s.filter (fun r => r.case_id = case_id)).map stateRecordOf)

/-- DatabaseManager.fetch_case_state (lambda_router.py lines 452-464):
decode the first record if the response is truthy and has records,
otherwise return ([], []).  The dbFail argument is the outcome of the
underlying rds-data call: some e models the call raising e (which
execute_query converts to the empty dict). -/
def fetch_case_state (dbFail : Option PyExc) (s : Store) (case_id : String) :
    List String × List StructuredPayload :=
  let response := execute_query
    (match dbFail with
     | some e => Except.error e
     | none => Except.ok (selectCaseState s case_id))
  match response with
  | RDSResp.emptyDict => ([], [])
  | RDSResp.resp [] => ([], [])
  | RDSResp.resp (rec :: _) => rec

/-- Summary record returned by the SELECT of fetch_historical_cases. -/
structure CaseSummary where
  case_id : String
  status : String
  updated_at : Nat
  brief_summary : String
  thread_ts : String
  channel_id : String
deriving DecidableEq, Repr

/-- Execution of the SELECT of fetch_historical_cases against the store:
rows of the client ordered by updated_at descending, first five. -/
def selectHistorical (s : Store) (client_id : String) : RDSResp CaseSummary :=
  RDSResp.resp
    ((((s.filter (fun r => r.client_id = client_id)).mergeSort
        (fun a b => b.updated_at ≤ a.updated_at)).map
      (fun r => ⟨r.case_id, r.status, r.updated_at, r.brief_summary,
                 r.thread_ts, r.channel_id⟩)).take 5)

/-- DatabaseManager.fetch_historical_cases (lambda_router.py lines
440-450): response.get('records', []) — the empty dict yields []. -/
def fetch_historical_cases (dbFail : Option PyExc) (s : Store)
    (client_id : String) : List CaseSummary :=
  let response := execute_query
    (match dbFail with
     | some e => Except.error e
     | none => Except.ok (selectHistorical s client_id))
  match response with
  | RDSResp.emptyDict => []
  | RDSResp.resp recs => recs

/-- The UPDATE of persist_case_state (lambda_router.py lines 466-479):
SET missing_fields = :mf, conversation = JSON_ARRAY_APPEND(conversation,
'$', :new_msg), updated_at = NOW() WHERE case_id = :cid.  A plain UPDATE:
rows that match are rewritten, and when no row matches the statement
affects nothing — no row is created. -/
def persist_case_state (s : Store) (now : Nat) (case_id : String)
    (missing_fields : List String) (new_msg : StructuredPayload) : Store :=
  s.map (fun r =>
    if r.case_id = case_id then
      { r with missing_fields := missing_fields,
               conversation := r.conversation ++ [new_msg],
               updated_at := now }
    else r)

/- ===========================================================
   BedrockAgentInvoker (lambda_router.py lines 145-201) and the
   resume branch of the router lambda_handler (lines 534-550).
   =========================================================== -/

/-- Inner input object of the request sent to Bedrock
(lambda_router.py lines 165-170): exactly the four fields text,
client_id, attachments and user_id of the payload dict. -/
structure AgentRequestInput where
  text : String
  client_id : String
  attachments : List String
  user_id : String
deriving DecidableEq, Repr

/-- The request body invoke_agent serialises and sends
(lambda_router.py lines 164-172): the input object plus the session
identifier the invoker itself recomputes as
f"session_(client_id)_(thread_ts)". -/
structure AgentRequest where
  input : AgentRequestInput
  sessionId : String
deriving DecidableEq, Repr

/-- Context block built by the router resume branch (lambda_router.py
lines 539-542): outstanding_fields and history from the stored state. -/
structure AgentContext where
  outstanding_fields : List String
  history : List StructuredPayload
deriving DecidableEq, Repr

/-- The agent_input dict built by the router resume branch
(lambda_router.py lines 537-543). -/
structure AgentInputMsg where
  new_message : String
  context : AgentContext
deriving DecidableEq, Repr

/-- Argument dict of an invoke_agent call.  The resume branch passes
the merged dict of the structured payload plus two extra keys
"agent_input" and "sessionId" (lines 544-548); the fresh branch passes
the payload alone (line 550), modelled by both extras being absent. -/
structure InvokeArg where
  base : StructuredPayload
  agent_input : Option AgentInputMsg
  sessionId_entry : Option (Option String)
deriving DecidableEq, Repr

/-- BedrockAgentInvoker.invoke_agent, request-construction part
(lambda_router.py lines 164-172): the request read off the argument
dict uses only the keys text, client_id, attachments, user_id and
thread_ts; the sessionId it sends is the freshly formatted
f"session_(client_id)_(thread_ts)". -/
def bedrock_agent_request (p : InvokeArg) : AgentRequest :=
  { input := { text := p.base.text, client_id := p.base.client_id,
               attachments := p.base.attachments, user_id := p.base.user_id },
    sessionId := "session_" ++ p.base.client_id ++ "_" ++ pyFStrOpt p.base.thread_ts }

/-- Invoke argument of the fresh branch (lambda_router.py line 550). -/
def freshInvokeArg (p : StructuredPayload) : InvokeArg :=
  { base := p, agent_input := none, sessionId_entry := none }

/-- Invoke argument of the resume branch (lambda_router.py lines
537-548): the payload is augmented with the agent_input context dict
(new_message = payload text, outstanding_fields and history from the
stored state) and a "sessionId" key holding thread_ts. -/
def resumeInvokeArg (p : StructuredPayload) (stored_mf : List String)
    (stored_conv : List StructuredPayload) : InvokeArg :=
  { base := p,
    agent_input := some { new_message := p.text,
                          context := { outstanding_fields := stored_mf,
                                       history := stored_conv } },
    sessionId_entry := some p.thread_ts }

/-- Router lambda_handler, state-resumption decision (lambda_router.py
lines 536-550): when the fetched missing_fields or conversation is
non-empty (Python truthiness of the two lists) the resume argument is
passed to invoke_agent, otherwise the plain payload; the function
returns the request that is actually sent to the agent. -/
def router_agent_request (p : StructuredPayload) (stored_mf : List String)
    (stored_conv : List StructuredPayload) : AgentRequest :=
  if !stored_mf.isEmpty || !stored_conv.isEmpty then
    bedrock_agent_request (resumeInvokeArg p stored_mf stored_conv)
  else
    bedrock_agent_request (freshInvokeArg p)

/- ===========================================================
   lambda_actions.py.

   The module defines logger and get_logger at module scope, but the
   methods of DatabaseManager, SlackInteractionHandler, BriefGenerator
   and PDFGenerator refer to a name log that the module never binds
   (log is only a local variable of lambda_handler, line 479; the
   repository test suite instead passes a logger into each
   constructor).  Resolving log in a method therefore raises
   NameError.  The model makes the name resolution explicit.
   =========================================================== -/

/-- Names bound at module scope in lambda_actions.py: imports, the AWS
client, the logging helpers and the class/function definitions.  The
name log is not among them. -/
def actionsModuleGlobals : List String :=
  ["json", "logging", "boto3", "ClientError", "os", "logger",
   "get_logger", "rds_client", "DatabaseManager",
   "SlackInteractionHandler", "BriefGenerator", "PDFGenerator",
   "lambda_handler"]

/-- Resolution of a global name inside a lambda_actions.py function
body: an unbound name raises NameError. -/
def resolveActionsGlobal (n : String) : Except PyExc Unit :=
  if actionsModuleGlobals.contains n then Except.ok () else Except.error PyExc.nameError

/-- The UPDATE of DatabaseManager.update_case_status (lambda_actions.py
lines 42-54): SET status, updated_at = NOW(), updated_by WHERE case_id
matches. -/
def updateStatusSql (s : Store) (case_id status user_id : String) (now : Nat) : Store :=
  s.map (fun r =>
    if r.case_id = case_id then
      { r with status := status, updated_at := now, updated_by := user_id }
    else r)

/-- DatabaseManager.update_case_status (lambda_actions.py lines 29-69).
dbFail models the underlying execute_statement raising ClientError.  On
success the SQL has been executed (even for zero matched rows) and the
method then evaluates log.info — NameError, which the except ClientError
clause does not catch; on ClientError the except clause evaluates
log.error — again NameError.  The store resulting from the SQL is
returned alongside, since the handler keeps running against it. -/
def update_case_status (dbFail : Bool) (s : Store)
    (case_id status user_id : String) (now : Nat) : Except PyExc Bool × Store :=
  if dbFail then
    match resolveActionsGlobal "log" with
    | Except.ok _ => (Except.ok false, s)
    | Except.error e => (Except.error e, s)
  else
    let s' := updateStatusSql s case_id status user_id now
    match resolveActionsGlobal "log" with
    | Except.ok _ => (Except.ok true, s')
    | Except.error e => (Except.error e, s')

/-- The dict DatabaseManager.get_case_data builds from a fetched row
(lambda_actions.py lines 101-112), JSON columns decoded. -/
structure CaseData where
  case_id : String
  client_id : String
  status : String
  created_at : String
  updated_at : String
  client_data : PyVal
  tags : List String
  missing_fields : List String

/-- Projection of a store row to the get_case_data dict; the timestamp
columns arrive as strings in the rds-data response. -/
def caseDataOfRow (r : CaseRow) : CaseData :=
  { case_id := r.case_id, client_id := r.client_id, status := r.status,
    created_at := toString r.created_at, updated_at := toString r.updated_at,
    client_data := r.client_data, tags := r.tags,
    missing_fields := r.missing_fields }

/-- DatabaseManager.get_case_data (lambda_actions.py lines 71-118): the
first matching row decoded, None when there is no record (no log call on
either of these paths); a ClientError from the query reaches the except
clause whose log.error raises NameError. -/
def get_case_data (dbFail : Bool) (s : Store) (case_id : String) :
    Except PyExc (Option CaseData) :=
  if dbFail then
    match resolveActionsGlobal "log" with
    | Except.ok _ => Except.ok none
    | Except.error e => Except.error e
  else
    match s.find? (fun r => r.case_id = case_id) with
    | some r => Except.ok (some (caseDataOfRow r))
    | none => Except.ok none

/-- The INSERT ... ON DUPLICATE KEY UPDATE of
DatabaseManager.save_case_data (lambda_actions.py lines 131-140): when a
row with the case_id exists its status, client_data, tags,
missing_fields and updated_at are rewritten; otherwise a fresh row is
inserted with empty defaults for the unsupplied columns (in particular an
empty conversation). -/
def saveCaseDataSql (s : Store) (case_id client_id status : String)
    (client_data : PyVal) (tags missing_fields : List String) (now : Nat) : Store :=
  if s.any (fun r => r.case_id = case_id) then
    s.map (fun r =>
      if r.case_id = case_id then
        { r with status := status, client_data := client_data,
                 tags := tags, missing_fields := missing_fields,
                 updated_at := now }
      else r)
  else
    s ++ [{ case_id := case_id, client_id := client_id, status := status,
            created_at := now, updated_at := now, updated_by := "",
            brief_summary := "", thread_ts := "", channel_id := "",
            client_data := client_data, tags := tags,
            missing_fields := missing_fields, conversation := [] }]

/-- SlackInteractionHandler.open_adjust_conditions_modal
(lambda_actions.py lines 172-209).  The try block builds the modal view;
_build_modal_blocks reads case_data.get('client_data', ...).get('notes', '')
(line 267), which raises if client_data is not a dict; afterwards
log.info raises NameError.  Either exception is caught by except
Exception, whose own log.error raises NameError. -/
def open_adjust_conditions_modal (_trigger_id : String) (cd : CaseData) :
    Except PyExc Bool :=
  let tryBody : Except PyExc Bool :=
    match pyGet cd.client_data "notes" (PyVal.pystr "") with
    | Except.error e => Except.error e
    | Except.ok _ =>
        match resolveActionsGlobal "log" with
        | Except.ok _ => Except.ok true
        | Except.error e => Except.error e
  match tryBody with
  | Except.ok b => Except.ok b
  | Except.error _ =>
      match resolveActionsGlobal "log" with
      | Except.ok _ => Except.ok false
      | Except.error e => Except.error e

/-- SlackInteractionHandler.send_confirmation_message (lambda_actions.py
lines 273-298): the try block builds the message dict and then evaluates
log.info — NameError; except Exception catches it and its log.error
raises NameError in turn. -/
def send_confirmation_message (_channel _thread_ts _action : String) :
    Except PyExc Bool :=
  match resolveActionsGlobal "log" with
  | Except.ok _ => Except.ok true
  | Except.error _ =>
      match resolveActionsGlobal "log" with
      | Except.ok _ => Except.ok false
      | Except.error e => Except.error e

/-- Rendering of a value inside a Python f-string (str()).  Exact for
None, strings and integers — the only shapes the modelled f-strings
receive; container reprs are abbreviated. -/
def pyValFStr : PyVal → String
  | PyVal.pynone => "None"
  | PyVal.pystr s => s
  | PyVal.pyint n => toString n
  | PyVal.pylist _ => "[...]"
  | PyVal.pydict _ => "\x7b...\x7d"

/-- Brief dict returned by the BriefGenerator methods (lambda_actions.py
lines 328-333 and 360-365): type tag, content dict, target channel and
template name. -/
structure Brief where
  btype : String
  content : List (String × PyVal)
  channel : String
  template : String

/-- BriefGenerator.generate_planner_brief (lambda_actions.py lines
306-337).  The try block reads
case_data.get('client_data', ...).get('actionable_fields', []) — the
inner get raises if client_data is not a dict — and otherwise builds the
content dict from placeholder helpers (score 75, fixed budget and
timeline); no log call happens on success.  except Exception logs
(log.error — NameError) and re-raises. -/
def generate_planner_brief (cd : CaseData) : Except PyExc Brief :=
  let tryBody : Except PyExc Brief :=
    match pyGet cd.client_data "actionable_fields" (PyVal.pylist []) with
    | Except.error e => Except.error e
    | Except.ok af =>
        Except.ok
          { btype := "planner",
            content :=
              [("client_id", PyVal.pystr cd.client_id),
               ("actionable_fields", af),
               ("tag_suggestions", PyVal.pylist (cd.tags.map PyVal.pystr)),
               ("missing_fields", PyVal.pylist (cd.missing_fields.map PyVal.pystr)),
               ("priority_score", PyVal.pyint 75),
               ("estimated_budget",
                PyVal.pydict [("min", PyVal.pyint 5000), ("max", PyVal.pyint 25000),
                              ("currency", PyVal.pystr "USD")]),
               ("timeline",
                PyVal.pydict [("duration_weeks", PyVal.pyint 8),
                              ("start_date", PyVal.pystr "2024-01-15"),
                              ("end_date", PyVal.pystr "2024-03-15")])],
            channel := "#planning",
            template := "planner_brief_template.md" }
  match tryBody with
  | Except.ok b => Except.ok b
  | Except.error e =>
      match resolveActionsGlobal "log" with
      | Except.ok _ => Except.error e
      | Except.error e' => Except.error e'

/-- BriefGenerator.generate_manager_brief (lambda_actions.py lines
339-369), analogous: competitive_analysis is read from client_data, the
other fields are placeholder constants, the executive summary is an
f-string over client_id. -/
def generate_manager_brief (cd : CaseData) : Except PyExc Brief :=
  let tryBody : Except PyExc Brief :=
    match pyGet cd.client_data "competitive_analysis" (PyVal.pydict []) with
    | Except.error e => Except.error e
    | Except.ok ca =>
        Except.ok
          { btype := "manager",
            content :=
              [("client_id", PyVal.pystr cd.client_id),
               ("kpis", PyVal.pylist [PyVal.pystr "Revenue Growth",
                                      PyVal.pystr "Market Share",
                                      PyVal.pystr "Customer Satisfaction"]),
               ("risks", PyVal.pylist [PyVal.pystr "Market Competition",
                                       PyVal.pystr "Resource Constraints",
                                       PyVal.pystr "Timeline Pressure"]),
               ("budget_considerations",
                PyVal.pydict [("roi_estimate", PyVal.pystr "150%"),
                              ("break_even_months", PyVal.pyint 6),
                              ("risk_factors",
                               PyVal.pylist [PyVal.pystr "Market volatility",
                                             PyVal.pystr "Resource costs"])]),
               ("competitive_analysis", ca),
               ("executive_summary",
                PyVal.pystr ("Strategic opportunity with " ++ cd.client_id ++
                  " showing strong potential for growth and market expansion."))],
            channel := "#manager-desk",
            template := "manager_brief_template.md" }
  match tryBody with
  | Except.ok b => Except.ok b
  | Except.error e =>
      match resolveActionsGlobal "log" with
      | Except.ok _ => Except.error e
      | Except.error e' => Except.error e'

/-- PDFGenerator.generate_pdf (lambda_actions.py lines 429-460).  The try
block formats f"brief_(client_id)_(type).pdf" by subscripting the content
dict — the brief content dicts carry no "type" key, so this raises
KeyError — then would build the S3 url and evaluate log.info (NameError).
except Exception logs (log.error — NameError) and re-raises. -/
def generate_pdf (s3_bucket : String) (content : List (String × PyVal))
    (_template_name : String) : Except PyExc String :=
  let tryBody : Except PyExc String :=
    match pySubscript (PyVal.pydict content) "client_id" with
    | Except.error e => Except.error e
    | Except.ok cidv =>
        match pySubscript (PyVal.pydict content) "type" with
        | Except.error e => Except.error e
        | Except.ok tyv =>
            let pdf_filename := "brief_" ++ pyValFStr cidv ++ "_" ++ pyValFStr tyv ++ ".pdf"
            let s3_key := "briefs/" ++ pdf_filename
            let pdf_url := "https://" ++ s3_bucket ++ ".s3.amazonaws.com/" ++ s3_key
            match resolveActionsGlobal "log" with
            | Except.ok _ => Except.ok pdf_url
            | Except.error e => Except.error e
  match tryBody with
  | Except.ok u => Except.ok u
  | Except.error e =>
      match resolveActionsGlobal "log" with
      | Except.ok _ => Except.error e
      | Except.error e' => Except.error e'

/-- HTTP-style response of a handler. -/
structure HttpResp where
  statusCode : Nat
  body : String
deriving DecidableEq, Repr

/-- Body of the generic 500 response,
json.dumps of the error dict (lambda_actions.py lines 577-580,
lambda_router.py line 582). -/
def internalErrorBody : String :=
  "\x7b\"error\": \"Internal server error\"\x7d"

/-- lambda_actions.lambda_handler (lambda_actions.py lines 462-580) from
the point where the interaction fields have been parsed (lines 496-502):
the dispatch on action_id.  Arguments: dbFail models the rds-data calls
raising ClientError, s is the store, then the parsed action_id, user_id,
channel_id, message_ts, case_id and trigger_id, the S3 bucket name and
the NOW() timestamp.  Returns the response together with the resulting
store (a successful UPDATE persists even when the handler subsequently
raises).  The outer except Exception turns any uncaught exception into
the generic 500 response. -/
def actions_lambda_handler (dbFail : Bool) (s : Store)
    (action_id user_id channel_id message_ts case_id trigger_id bucket : String)
    (now : Nat) : HttpResp × Store :=
  let dispatched : Except PyExc HttpResp × Store :=
    if action_id = "confirm_correct" then
      -- lines 507-511
      match update_case_status dbFail s case_id "confirmed" user_id now with
      | (Except.error e, s') => (Except.error e, s')
      | (Except.ok true, s') =>
          (match send_confirmation_message channel_id message_ts "Confirmed as Correct" with
           | Except.error e => Except.error e
           | Except.ok _ => Except.ok ⟨200, "Case confirmed"⟩, s')
      | (Except.ok false, s') => (Except.ok ⟨200, "Action processed"⟩, s')
    else if action_id = "adjust_conditions" then
      -- lines 513-521
      (match get_case_data dbFail s case_id with
       | Except.error e => Except.error e
       | Except.ok none => Except.ok ⟨200, "Action processed"⟩
       | Except.ok (some cd) =>
           match open_adjust_conditions_modal trigger_id cd with
           | Except.error e => Except.error e
           | Except.ok true => Except.ok ⟨200, "Modal opened"⟩
           | Except.ok false => Except.ok ⟨200, "Action processed"⟩, s)
    else if action_id = "push_to_planner" then
      -- lines 523-543
      (match get_case_data dbFail s case_id with
       | Except.error e => Except.error e
       | Except.ok none => Except.ok ⟨200, "Action processed"⟩
       | Except.ok (some cd) =>
           match generate_planner_brief cd with
           | Except.error e => Except.error e
           | Except.ok pb =>
               match generate_manager_brief cd with
               | Except.error e => Except.error e
               | Except.ok mb =>
                   match generate_pdf bucket pb.content pb.template with
                   | Except.error e => Except.error e
                   | Except.ok _ =>
                       match generate_pdf bucket mb.content mb.template with
                       | Except.error e => Except.error e
                       | Except.ok _ => Except.ok ⟨200, "Briefs generated"⟩, s)
    else if action_id = "remind_later" then
      -- lines 546-556; the log.info of line 552 runs in lambda_handler
      -- itself, where log is a defined local — no NameError there
      (match get_case_data dbFail s case_id with
       | Except.error e => Except.error e
       | Except.ok none => Except.ok ⟨200, "Action processed"⟩
       | Except.ok (some _) =>
           match send_confirmation_message channel_id message_ts
               "You will be reminded to complete this case later." with
           | Except.error e => Except.error e
           | Except.ok _ => Except.ok ⟨200, "Remind later acknowledged"⟩, s)
    else if action_id = "complete_data" then
      -- lines 558-567
      (match get_case_data dbFail s case_id with
       | Except.error e => Except.error e
       | Except.ok none => Except.ok ⟨200, "Action processed"⟩
       | Except.ok (some cd) =>
           match open_adjust_conditions_modal trigger_id cd with
           | Except.error e => Except.error e
           | Except.ok true => Except.ok ⟨200, "Pre-filled modal opened"⟩
           | Except.ok false => Except.ok ⟨200, "Action processed"⟩, s)
    else
      -- lines 569-571: log.warning runs in lambda_handler (defined local)
      (Except.ok ⟨400, "Unknown action"⟩, s)
  match dispatched with
  | (Except.ok r, s') => (r, s')
  | (Except.error _, s') => (⟨500, internalErrorBody⟩, s')

/-- Sample row used by the concrete evaluations below. -/
def sampleRow : CaseRow :=
  { case_id := "c1", client_id := "acme", status := "pending",
    created_at := 1, updated_at := 1, updated_by := "", brief_summary := "",
    thread_ts := "111.222", channel_id := "C01",
    client_data := PyVal.pydict [], tags := ["tagA"],
    missing_fields := ["budget"], conversation := [] }

/- ===========================================================
   MessageTransformer.transform_slack_message
   (lambda_router.py lines 65-108), over untyped payloads.
   =========================================================== -/

/-- Attachment collection loop (lambda_router.py lines 82-86): for each
file, if 'url_private' is a member, append file['url_private']. -/
def collect_attachments : List PyVal → Except PyExc (List PyVal)
  | [] => Except.ok []
  | f :: fs =>
      match pyContains "url_private" f with
      | Except.error e => Except.error e
      | Except.ok true =>
          match pySubscript f "url_private" with
          | Except.error e => Except.error e
          | Except.ok u =>
              match collect_attachments fs with
              | Except.error e => Except.error e
              | Except.ok us => Except.ok (u :: us)
      | Except.ok false => collect_attachments fs

/-- MessageTransformer.transform_slack_message (lambda_router.py lines
65-108).  A missing event key is replaced by the empty dict
(slack_event.get('event', ...), line 77); every field of the event is
then read with a defaulting get; thread_ts is
event.get('thread_ts') or event.get('ts') (line 89).  The except clause
of the source logs and re-raises, so exceptions propagate unchanged.
re.search on a non-string text raises TypeError.  The hash key pair
(k0, k1) parameterises the client-id fallback. -/
def transform_slack_message (k0 k1 : Nat) (slack_event : PyVal) :
    Except PyExc PyVal :=
  match pyGet slack_event "event" (PyVal.pydict []) with
  | Except.error e => Except.error e
  | Except.ok event =>
  match pyGet event "user" (PyVal.pystr "") with
  | Except.error e => Except.error e
  | Except.ok user_id =>
  match pyGet event "text" (PyVal.pystr "") with
  | Except.error e => Except.error e
  | Except.ok text =>
  match pyContains "files" event with
  | Except.error e => Except.error e
  | Except.ok hasFiles =>
  match (if hasFiles then
           match pySubscript event "files" with
           | Except.error e => Except.error e
           | Except.ok fv =>
               match pyIter fv with
               | Except.error e => Except.error e
               | Except.ok fl => collect_attachments fl
         else Except.ok []) with
  | Except.error e => Except.error e
  | Except.ok attachments =>
  match pyGet event "thread_ts" PyVal.pynone with
  | Except.error e => Except.error e
  | Except.ok tts =>
  match pyGet event "ts" PyVal.pynone with
  | Except.error e => Except.error e
  | Except.ok tsv =>
  let thread_ts := pyOrVal tts tsv
  match (match text with
         | PyVal.pystr t => Except.ok (extract_client_id k0 k1 t)
         | _ => Except.error PyExc.typeError) with
  | Except.error e => Except.error e
  | Except.ok client_id =>
  match pyGet event "channel" (PyVal.pystr "") with
  | Except.error e => Except.error e
  | Except.ok channel =>
  match pyGet event "ts" (PyVal.pystr "") with
  | Except.error e => Except.error e
  | Except.ok timestamp =>
  Except.ok (PyVal.pydict
    [("client_id", PyVal.pystr client_id),
     ("text", text),
     ("attachments", PyVal.pylist attachments),
     ("user_id", user_id),
     ("thread_ts", thread_ts),
     ("channel_id", channel),
     ("timestamp", timestamp),
     ("message_type", PyVal.pystr "slack_thread")])

/-- The payload transform_slack_message returns for any inbound payload
whose event key is absent: every field defaults, and the client-id
fallback on the empty text is client_0 under every hash key, since
CPython hashes the empty string to 0 unconditionally. -/
def noEventPayload : PyVal :=
  PyVal.pydict
    [("client_id", PyVal.pystr "client_0"),
     ("text", PyVal.pystr ""),
     ("attachments", PyVal.pylist []),
     ("user_id", PyVal.pystr ""),
     ("thread_ts", PyVal.pynone),
     ("channel_id", PyVal.pystr ""),
     ("timestamp", PyVal.pystr ""),
     ("message_type", PyVal.pystr "slack_thread")]

/- ===========================================================
   Store operations and helper lemmas.
   =========================================================== -/

/-- The conversation that a read through fetch_case_state observes for a
case (second component of the fetched state, healthy backend). -/
def fetch_conversation (s : Store) (case_id : String) : List StructuredPayload :=
  (fetch_case_state none s case_id).2

/-- The write operations the two modules perform against the cases
table: the router's persist_case_state and the action handler's
update_case_status and save_case_data. -/
inductive StoreOp where
  | persistState (now : Nat) (case_id : String) (mf : List String)
      (msg : StructuredPayload) : StoreOp
  | updateStatus (case_id status user_id : String) (now : Nat) : StoreOp
  | saveCase (case_id client_id status : String) (client_data : PyVal)
      (tags mf : List String) (now : Nat) : StoreOp

/-- Effect of a write operation on the table. -/
def applyStoreOp : StoreOp → Store → Store
  | StoreOp.persistState now cid mf msg, s => persist_case_state s now cid mf msg
  | StoreOp.updateStatus cid st uid now, s => updateStatusSql s cid st uid now
  | StoreOp.saveCase cid cl st cd tags mf now, s =>
      saveCaseDataSql s cid cl st cd tags mf now

/-- The row rewrite performed by the UPDATE of persist_case_state. -/
def persistRowUpdate (now : Nat) (cid : String) (mf : List String)
    (msg : StructuredPayload) (r : CaseRow) : CaseRow :=
  if r.case_id = cid then
    { r with missing_fields := mf, conversation := r.conversation ++ [msg],
             updated_at := now }
  else r

/-- The row rewrite performed by the UPDATE of update_case_status. -/
def statusRowUpdate (cid status uid : String) (now : Nat) (r : CaseRow) : CaseRow :=
  if r.case_id = cid then
    { r with status := status, updated_at := now, updated_by := uid }
  else r

/-- The row rewrite performed by the ON DUPLICATE KEY UPDATE branch of
save_case_data. -/
def saveRowUpdate (cid status : String) (client_data : PyVal)
    (tags mf : List String) (now : Nat) (r : CaseRow) : CaseRow :=
  if r.case_id = cid then
    { r with status := status, client_data := client_data, tags := tags,
             missing_fields := mf, updated_at := now }
  else r

/-- Payload used by the concrete instances below. -/
def samplePayload : StructuredPayload :=
  { client_id := "ABC Corp", text := "client: ABC Corp we need a plan",
    attachments := [], user_id := "U1",
    thread_ts := some "1699382400.000100", channel_id := "C01",
    timestamp := "1699382400.000100" }

/-- The sample row as the UPDATE of update_case_status rewrites it. -/
def sampleRowConfirmed : CaseRow :=
  { sampleRow with status := "confirmed", updated_at := 2, updated_by := "U1" }

/-- A second, different payload (a follow-up message in the thread). -/
def samplePayload2 : StructuredPayload :=
  { client_id := "ABC Corp", text := "the budget is 50k",
    attachments := [], user_id := "U1",
    thread_ts := some "1699382400.000100", channel_id := "C01",
    timestamp := "1699382460.000200" }

/- ===========================================================
   SlackSignatureVerifier (lambda_router.py lines 21-60).

   verify_signature computes
   hmac.new(secret.encode(), ("v0:" + timestamp + ":" + body).encode(),
            hashlib.sha256).hexdigest()
   and compares "v0=" + digest with the provided header using
   hmac.compare_digest.  SHA-256 and HMAC are embedded concretely so
   that the verifier is executable on bytes.
   =========================================================== -/

/-- Reduction of a natural number to 32 bits. -/
def mask32 (x : Nat) : Nat := x % (2 ^ 32)

/-- Right rotation of a 32-bit word. -/
def rotr32 (x n : Nat) : Nat :=
  (x >>> n) ||| mask32 (x <<< (32 - n))

/-- SHA-256 choice function. -/
def shaCh (x y z : Nat) : Nat :=
  (x &&& y) ^^^ ((x ^^^ 0xffffffff) &&& z)

/-- SHA-256 majority function. -/
def shaMaj (x y z : Nat) : Nat :=
  (x &&& y) ^^^ (x &&& z) ^^^ (y &&& z)

/-- SHA-256 big sigma 0. -/
def bigSigma0 (x : Nat) : Nat := rotr32 x 2 ^^^ rotr32 x 13 ^^^ rotr32 x 22

/-- SHA-256 big sigma 1. -/
def bigSigma1 (x : Nat) : Nat := rotr32 x 6 ^^^ rotr32 x 11 ^^^ rotr32 x 25

/-- SHA-256 small sigma 0. -/
def smallSigma0 (x : Nat) : Nat := rotr32 x 7 ^^^ rotr32 x 18 ^^^ (x >>> 3)

/-- SHA-256 small sigma 1. -/
def smallSigma1 (x : Nat) : Nat := rotr32 x 17 ^^^ rotr32 x 19 ^^^ (x >>> 10)

/-- SHA-256 round constants (the 64 standard words, in decimal). -/
def shaK : List Nat :=
  [1116352408, 1899447441, 3049323471, 3921009573, 961987163,
   1508970993, 2453635748, 2870763221, 3624381080, 310598401,
   607225278, 1426881987, 1925078388, 2162078206, 2614888103,
   3248222580, 3835390401, 4022224774, 264347078, 604807628,
   770255983, 1249150122, 1555081692, 1996064986, 2554220882,
   2821834349, 2952996808, 3210313671, 3336571891, 3584528711,
   113926993, 338241895, 666307205, 773529912, 1294757372,
   1396182291, 1695183700, 1986661051, 2177026350, 2456956037,
   2730485921, 2820302411, 3259730800, 3345764771, 3516065817,
   3600352804, 4094571909, 275423344, 430227734, 506948616,
   659060556, 883997877, 958139571, 1322822218, 1537002063,
   1747873779, 1955562222, 2024104815, 2227730452, 2361852424,
   2428436474, 2756734187, 3204031479, 3329325298]

/-- Working state of the SHA-256 compression function. -/
structure Sha256State where
  a : Nat
  b : Nat
  c : Nat
  d : Nat
  e : Nat
  f : Nat
  g : Nat
  h : Nat
deriving DecidableEq, Repr

/-- SHA-256 initial hash value (the 8 standard words, in decimal). -/
def sha256Init : Sha256State :=
  ⟨1779033703, 3144134277, 1013904242, 2773480762,
   1359893119, 2600822924, 528734635, 1541459225⟩

/-- One round of the SHA-256 compression function. -/
def sha256Round (s : Sha256State) (k w : Nat) : Sha256State :=
  let t1 := mask32 (s.h + bigSigma1 s.e + shaCh s.e s.f s.g + k + w)
  let t2 := mask32 (bigSigma0 s.a + shaMaj s.a s.b s.c)
  ⟨mask32 (t1 + t2), s.a, s.b, s.c, mask32 (s.d + t1), s.e, s.f, s.g⟩

/-- Message-schedule extension: n new words prepended to the reversed
schedule (latest word first). -/
def scheduleExtend : Nat → List Nat → List Nat
  | 0, ws => ws
  | n + 1, ws =>
      scheduleExtend n
        (mask32 (smallSigma1 (ws.getD 1 0) + ws.getD 6 0 +
                 smallSigma0 (ws.getD 14 0) + ws.getD 15 0) :: ws)

/-- Big-endian bytes of a value, fixed width. -/
def beBytes : Nat → Nat → List Nat
  | 0, _ => []
  | n + 1, v => beBytes n (v / 256) ++ [v % 256]

/-- Big-endian 32-bit words of a byte list (length a multiple of 4). -/
def beWords : List Nat → List Nat
  | b0 :: b1 :: b2 :: b3 :: rest =>
      (((b0 * 256 + b1) * 256 + b2) * 256 + b3) :: beWords rest
  | _ => []

/-- Processing of one 16-word block. -/
def sha256Block (hst : Sha256State) (ws16 : List Nat) : Sha256State :=
  let w := (scheduleExtend 48 ws16.reverse).reverse
  let s := (shaK.zip w).foldl (fun s kw => sha256Round s kw.1 kw.2) hst
  ⟨mask32 (hst.a + s.a), mask32 (hst.b + s.b), mask32 (hst.c + s.c),
   mask32 (hst.d + s.d), mask32 (hst.e + s.e), mask32 (hst.f + s.f),
   mask32 (hst.g + s.g), mask32 (hst.h + s.h)⟩

/-- Processing of all 16-word blocks of the padded message (the padding
makes the word count a multiple of 16, so the second branch is only the
final empty list). -/
def sha256Chunks : Sha256State → List Nat → Sha256State
  | hst, w0 :: w1 :: w2 :: w3 :: w4 :: w5 :: w6 :: w7 ::
         w8 :: w9 :: w10 :: w11 :: w12 :: w13 :: w14 :: w15 :: rest =>
      sha256Chunks
        (sha256Block hst
          [w0, w1, w2, w3, w4, w5, w6, w7, w8, w9, w10, w11, w12, w13, w14, w15])
        rest
  | hst, _ => hst

/-- SHA-256 padding: 0x80, zeros to 56 mod 64, 8-byte big-endian bit
length. -/
def sha256Pad (msg : List Nat) : List Nat :=
  let zeros := (119 - msg.length % 64) % 64
  msg ++ [0x80] ++ List.replicate zeros 0 ++ beBytes 8 (msg.length * 8)

/-- SHA-256 of a byte list, as a 32-byte list. -/
def sha256 (msg : List Nat) : List Nat :=
  let hst := sha256Chunks sha256Init (beWords (sha256Pad msg))
  (([hst.a, hst.b, hst.c, hst.d, hst.e, hst.f, hst.g, hst.h]).map (beBytes 4)).flatten

/-- HMAC-SHA256 (RFC 2104): block size 64, a longer key hashed first. -/
def hmacSha256 (key msg : List Nat) : List Nat :=
  let k1 := if key.length > 64 then sha256 key else key
  let k0 := k1 ++ List.replicate (64 - k1.length) 0
  let ipad := k0.map (fun b => b ^^^ 0x36)
  let opad := k0.map (fun b => b ^^^ 0x5c)
  sha256 (opad ++ sha256 (ipad ++ msg))

/-- Lower-case hexadecimal character of a value below 16. -/
def hexChar (n : Nat) : Char :=
  if n < 10 then Char.ofNat (48 + n) else Char.ofNat (87 + n)

/-- Lower-case hexadecimal rendering of a byte list (hexdigest). -/
def hexDigest (bs : List Nat) : String :=
  String.mk (bs.foldr (fun b acc => hexChar (b / 16) :: hexChar (b % 16) :: acc) [])

/-- UTF-8 encoding of one character. -/
def utf8Char (c : Char) : List Nat :=
  let n := c.toNat
  if n < 0x80 then [n]
  else if n < 0x800 then [0xc0 + n / 64, 0x80 + n % 64]
  else if n < 0x10000 then
    [0xe0 + n / 4096, 0x80 + (n / 64) % 64, 0x80 + n % 64]
  else
    [0xf0 + n / 262144, 0x80 + (n / 4096) % 64, 0x80 + (n / 64) % 64,
     0x80 + n % 64]

/-- str.encode('utf-8') as a byte list. -/
def utf8Bytes (s : String) : List Nat :=
  (s.data.map utf8Char).flatten

/-- SlackSignatureVerifier.verify_signature (lambda_router.py lines
27-60): missing (or empty) timestamp or signature header yields false;
otherwise the expected signature
"v0=" + hexdigest(HMAC-SHA256(secret, "v0:" + timestamp + ":" + body))
is compared with the provided header (hmac.compare_digest is
constant-time string equality; its result equals plain equality).  The
try/except of the source returns false on any exception, but no
operation of the body raises on string inputs. -/
def verify_signature (signing_secret body : String)
    (timestampHeader signatureHeader : Option String) : Bool :=
  let timestamp := timestampHeader.getD ""
  let signature := signatureHeader.getD ""
  if timestamp == "" || signature == "" then false
  else
    let sig_basestring := "v0:" ++ timestamp ++ ":" ++ body
    let expected :=
      "v0=" ++ hexDigest (hmacSha256 (utf8Bytes signing_secret)
                                     (utf8Bytes sig_basestring))
    expected == signature

/-- Evaluation of fetch_case_state with a healthy backend: the first row
of the table whose case_id matches, or the empty state. -/
theorem fetch_case_state_eq_match (s : Store) (cid : String) :
    fetch_case_state none s cid =
      match s.filter (fun r => r.case_id = cid) with
      | [] => ([], [])
      | r :: _ => (r.missing_fields, r.conversation) := by
  unfold fetch_case_state execute_query selectCaseState
  cases hfil : s.filter (fun r => r.case_id = cid) <;> simp [stateRecordOf]

/-- A map that preserves case_id commutes with the case_id filter. -/
theorem filter_caseid_map (f : CaseRow → CaseRow)
    (hf : ∀ r, (f r).case_id = r.case_id) (s : Store) (cid : String) :
    (s.map f).filter (fun r => r.case_id = cid)
      = (s.filter (fun r => r.case_id = cid)).map f := by
  induction s with
  | nil => rfl
  | cons r rs ih =>
      by_cases h : r.case_id = cid <;>
        simp [List.filter_cons, hf, h, ih]

theorem persist_case_state_eq_map (s : Store) (now : Nat) (cid : String)
    (mf : List String) (msg : StructuredPayload) :
    persist_case_state s now cid mf msg = s.map (persistRowUpdate now cid mf msg) := rfl

theorem persistRowUpdate_case_id (now : Nat) (cid : String) (mf : List String)
    (msg : StructuredPayload) (r : CaseRow) :
    (persistRowUpdate now cid mf msg r).case_id = r.case_id := by
  unfold persistRowUpdate
  by_cases h : r.case_id = cid <;> simp [h]

/-- Reading back a case after one persist_case_state write against a
table that does contain the case: the missing_fields column holds the
newly supplied list and the conversation has the message appended. -/
theorem fetch_after_persist (s : Store) (now : Nat) (cid : String)
    (mf : List String) (msg : StructuredPayload)
    (h : ∃ r ∈ s, r.case_id = cid) :
    fetch_case_state none (persist_case_state s now cid mf msg) cid
      = (mf, fetch_conversation s cid ++ [msg]) := by
  obtain ⟨r0, hr0, hcid⟩ := h
  rw [persist_case_state_eq_map, fetch_case_state_eq_match]
  rw [filter_caseid_map _ (persistRowUpdate_case_id now cid mf msg)]
  unfold fetch_conversation
  rw [fetch_case_state_eq_match]
  cases hfil : s.filter (fun r => r.case_id = cid) with
  | nil =>
      exfalso
      have hmem : r0 ∈ s.filter (fun r => r.case_id = cid) :=
        List.mem_filter.mpr ⟨hr0, by simp [hcid]⟩
      rw [hfil] at hmem
      exact List.not_mem_nil _ hmem
  | cons rh rt =>
      have hrh : rh ∈ s.filter (fun r => r.case_id = cid) := by
        rw [hfil]; exact List.mem_cons_self _ _
      have hrhcid : rh.case_id = cid := by
        have := (List.mem_filter.mp hrh).2
        simpa using this
      simp [persistRowUpdate, hrhcid]

theorem updateStatusSql_eq_map (s : Store) (cid st uid : String) (now : Nat) :
    updateStatusSql s cid st uid now = s.map (statusRowUpdate cid st uid now) := rfl

theorem statusRowUpdate_case_id (cid st uid : String) (now : Nat) (r : CaseRow) :
    (statusRowUpdate cid st uid now r).case_id = r.case_id := by
  unfold statusRowUpdate
  by_cases h : r.case_id = cid <;> simp [h]

theorem saveRowUpdate_case_id (cid st : String) (cd : PyVal)
    (tags mf : List String) (now : Nat) (r : CaseRow) :
    (saveRowUpdate cid st cd tags mf now r).case_id = r.case_id := by
  unfold saveRowUpdate
  by_cases h : r.case_id = cid <;> simp [h]

/-- No write operation of either module shrinks the conversation a read
observes: after any of the three writes, the fetched conversation of
every case is the previously fetched conversation possibly extended. -/
theorem fetch_conversation_extends (op : StoreOp) (s : Store) (cid : String) :
    ∃ t, fetch_conversation (applyStoreOp op s) cid
          = fetch_conversation s cid ++ t := by
  unfold fetch_conversation
  cases op with
  | persistState now cid' mf msg =>
      show ∃ t, (fetch_case_state none (persist_case_state s now cid' mf msg) cid).2 = _
      rw [persist_case_state_eq_map, fetch_case_state_eq_match,
        fetch_case_state_eq_match,
        filter_caseid_map _ (persistRowUpdate_case_id now cid' mf msg)]
      cases hfil : s.filter (fun r => r.case_id = cid) with
      | nil => exact ⟨[], rfl⟩
      | cons rh rt =>
          by_cases h : rh.case_id = cid'
          · exact ⟨[msg], by simp [persistRowUpdate, h]⟩
          · exact ⟨[], by simp [persistRowUpdate, h]⟩
  | updateStatus cid' st uid now =>
      show ∃ t, (fetch_case_state none (updateStatusSql s cid' st uid now) cid).2 = _
      rw [updateStatusSql_eq_map, fetch_case_state_eq_match,
        fetch_case_state_eq_match,
        filter_caseid_map _ (statusRowUpdate_case_id cid' st uid now)]
      cases hfil : s.filter (fun r => r.case_id = cid) with
      | nil => exact ⟨[], rfl⟩
      | cons rh rt =>
          by_cases h : rh.case_id = cid'
          · exact ⟨[], by simp [statusRowUpdate, h]⟩
          · exact ⟨[], by simp [statusRowUpdate, h]⟩
  | saveCase cid' cl st cd tags mf now =>
      show ∃ t, (fetch_case_state none (saveCaseDataSql s cid' cl st cd tags mf now) cid).2 = _
      unfold saveCaseDataSql
      by_cases hany : s.any (fun r => r.case_id = cid')
      · rw [if_pos hany]
        have heq : (s.map (fun r =>
            if r.case_id = cid' then
              { r with status := st, client_data := cd, tags := tags,
                       missing_fields := mf, updated_at := now }
            else r)) = s.map (saveRowUpdate cid' st cd tags mf now) := rfl
        rw [heq, fetch_case_state_eq_match, fetch_case_state_eq_match,
          filter_caseid_map _ (saveRowUpdate_case_id cid' st cd tags mf now)]
        cases hfil : s.filter (fun r => r.case_id = cid) with
        | nil => exact ⟨[], rfl⟩
        | cons rh rt =>
            by_cases h : rh.case_id = cid'
            · exact ⟨[], by simp [saveRowUpdate, h]⟩
            · exact ⟨[], by simp [saveRowUpdate, h]⟩
      · rw [if_neg hany]
        rw [fetch_case_state_eq_match, fetch_case_state_eq_match,
          List.filter_append]
        cases hfil : s.filter (fun r => r.case_id = cid) with
        | nil =>
            by_cases h : cid' = cid
            · exact ⟨[], by simp [h]⟩
            · exact ⟨[], by simp [h]⟩
        | cons rh rt => exact ⟨[], by simp⟩

/- ===========================================================
   Claim theorems.
   =========================================================== -/

/-- C1, counterexample.  persist_case_state is a plain UPDATE, not an
upsert: called for a case_id with no row (here: the empty table, a brand
new thread), it creates nothing and a subsequent fetch_case_state
returns ([], []) — the first write is silently lost, contradicting the
claim that it creates the row and that the fetch returns the persisted
state. -/
theorem C1_counterexample :
    persist_case_state [] 5 "1699382400.000100" ["budget"] samplePayload = [] ∧
    fetch_case_state none
        (persist_case_state [] 5 "1699382400.000100" ["budget"] samplePayload)
        "1699382400.000100"
      = ([], []) :=
  ⟨rfl, rfl⟩

/-- C1, amended.  persist_case_state updates only an existing row: when
some row for the case_id exists, a subsequent fetch_case_state returns
the persisted missing_fields and the conversation with the new message
appended; for a case_id with no row the write is a no-op (see the
counterexample). -/
theorem C1_amended (s : Store) (now : Nat) (cid : String) (mf : List String)
    (m : StructuredPayload) (h : ∃ r ∈ s, r.case_id = cid) :
    fetch_case_state none (persist_case_state s now cid mf m) cid
      = (mf, fetch_conversation s cid ++ [m]) :=
  fetch_after_persist s now cid mf m h

/-- C1, witness for the amended theorem at a concrete table. -/
theorem C1_amended_witness :
    (∃ r ∈ [sampleRow], r.case_id = "c1") ∧
    fetch_case_state none
        (persist_case_state [sampleRow] 7 "c1" ["deadline"] samplePayload) "c1"
      = (["deadline"], fetch_conversation [sampleRow] "c1" ++ [samplePayload]) :=
  ⟨⟨sampleRow, by simp, rfl⟩,
   C1_amended [sampleRow] 7 "c1" ["deadline"] samplePayload
     ⟨sampleRow, by simp, rfl⟩⟩

/-- C2.  The resume branch of the router builds an outstanding_fields
and history context dict and passes sessionId = thread_ts, but
invoke_agent rebuilds its request from the payload's text, client_id,
attachments and user_id alone: the request actually sent to the agent is
identical with and without the context block (so it carries no
outstanding_fields or history), and the session token it carries is
"session_" + client_id + "_" + thread_ts, which is never equal to the
stable case_id (the thread timestamp). -/
theorem C2_theorem :
    ∀ (p : StructuredPayload) (stored_mf : List String)
      (stored_conv : List StructuredPayload),
      router_agent_request p stored_mf stored_conv
        = bedrock_agent_request (freshInvokeArg p) ∧
      bedrock_agent_request (resumeInvokeArg p stored_mf stored_conv)
        = bedrock_agent_request (freshInvokeArg p) ∧
      (router_agent_request p stored_mf stored_conv).sessionId
        = "session_" ++ p.client_id ++ "_" ++ pyFStrOpt p.thread_ts ∧
      (router_agent_request p stored_mf stored_conv).sessionId
        ≠ pyFStrOpt p.thread_ts := by
  intro p mf conv
  have hreq : router_agent_request p mf conv
      = bedrock_agent_request (freshInvokeArg p) := by
    unfold router_agent_request
    split <;> rfl
  refine ⟨hreq, rfl, by rw [hreq]; rfl, ?_⟩
  rw [hreq]
  intro habs
  have hlen := congrArg String.length habs
  simp only [bedrock_agent_request, freshInvokeArg, String.length_append] at hlen
  have h8 : String.length "session_" = 8 := rfl
  have h1 : String.length "_" = 1 := rfl
  rw [h8, h1] at hlen
  omega

/-- C5.  The conversation column is append-only: with an existing row,
two persist_case_state calls leave the fetched conversation equal to the
old conversation followed by the two messages in call order; and no
write operation of either module (persist_case_state,
update_case_status, save_case_data) ever shrinks the conversation that a
fetch observes. -/
theorem C5_theorem :
    (∀ (s : Store) (cid : String) (now1 now2 : Nat) (mf1 mf2 : List String)
        (m1 m2 : StructuredPayload),
        (∃ r ∈ s, r.case_id = cid) →
        fetch_conversation
            (persist_case_state (persist_case_state s now1 cid mf1 m1) now2 cid mf2 m2)
            cid
          = fetch_conversation s cid ++ [m1, m2]) ∧
    (∀ (op : StoreOp) (s : Store) (cid : String),
        ∃ t, fetch_conversation (applyStoreOp op s) cid
              = fetch_conversation s cid ++ t) := by
  constructor
  · intro s cid now1 now2 mf1 mf2 m1 m2 h
    have hex : ∃ r ∈ persist_case_state s now1 cid mf1 m1, r.case_id = cid := by
      obtain ⟨r0, hr0, hcid⟩ := h
      refine ⟨persistRowUpdate now1 cid mf1 m1 r0, ?_, ?_⟩
      · rw [persist_case_state_eq_map]
        exact List.mem_map_of_mem _ hr0
      · rw [persistRowUpdate_case_id]
        exact hcid
    have h1 := fetch_after_persist s now1 cid mf1 m1 h
    have h2 := fetch_after_persist (persist_case_state s now1 cid mf1 m1)
      now2 cid mf2 m2 hex
    unfold fetch_conversation at h1 h2 ⊢
    rw [h2, h1]
    simp
  · exact fetch_conversation_extends

/-- C5, witness at a concrete table and two concrete messages. -/
theorem C5_witness :
    (∃ r ∈ [sampleRow], r.case_id = "c1") ∧
    fetch_conversation
        (persist_case_state
          (persist_case_state [sampleRow] 2 "c1" ["timeline"] samplePayload)
          3 "c1" ["budget"] samplePayload2)
        "c1"
      = fetch_conversation [sampleRow] "c1" ++ [samplePayload, samplePayload2] :=
  ⟨⟨sampleRow, by simp, rfl⟩,
   C5_theorem.1 [sampleRow] "c1" 2 3 ["timeline"] ["budget"]
     samplePayload samplePayload2 ⟨sampleRow, by simp, rfl⟩⟩

/-- C10.  A raised exception in the underlying query is indistinguishable
from absence at the read interface: for every exception, fetch_case_state
returns ([], []) — exactly the never-persisted result — and
fetch_historical_cases returns []; the router then takes the
fresh-session branch, sending the same agent request as for a case with
no prior state. -/
theorem C10_theorem :
    ∀ (e : PyExc) (s : Store) (case_id client_id : String)
      (p : StructuredPayload),
      fetch_case_state (some e) s case_id = ([], []) ∧
      fetch_case_state (some e) s case_id = fetch_case_state none [] case_id ∧
      fetch_historical_cases (some e) s client_id = [] ∧
      router_agent_request p (fetch_case_state (some e) s case_id).1
          (fetch_case_state (some e) s case_id).2
        = bedrock_agent_request (freshInvokeArg p) :=
  fun _ _ _ _ _ => ⟨rfl, rfl, rfl, rfl⟩

/-- C3.  Dispatch on the shipped code: every success path of the five
known actions ends in the generic 500 response, because the class
methods resolve the unbound name log (NameError escapes the handler
branches); the absent-case path of confirm_correct also yields 500 for
the same reason, while the absent-case paths of the four read-first
actions fall through to 200; an unrecognized action_id yields 400 and
leaves the store untouched. -/
theorem C3_theorem :
    (actions_lambda_handler false [sampleRow] "confirm_correct" "U1" "C01"
        "111.222" "c1" "trig" "bkt" 2).1 = ⟨500, internalErrorBody⟩ ∧
    (actions_lambda_handler false [sampleRow] "adjust_conditions" "U1" "C01"
        "111.222" "c1" "trig" "bkt" 2).1 = ⟨500, internalErrorBody⟩ ∧
    (actions_lambda_handler false [sampleRow] "push_to_planner" "U1" "C01"
        "111.222" "c1" "trig" "bkt" 2).1 = ⟨500, internalErrorBody⟩ ∧
    (actions_lambda_handler false [sampleRow] "remind_later" "U1" "C01"
        "111.222" "c1" "trig" "bkt" 2).1 = ⟨500, internalErrorBody⟩ ∧
    (actions_lambda_handler false [sampleRow] "complete_data" "U1" "C01"
        "111.222" "c1" "trig" "bkt" 2).1 = ⟨500, internalErrorBody⟩ ∧
    actions_lambda_handler false [sampleRow] "unknown_action" "U1" "C01"
        "111.222" "c1" "trig" "bkt" 2 = (⟨400, "Unknown action"⟩, [sampleRow]) ∧
    (actions_lambda_handler false [] "confirm_correct" "U1" "C01"
        "111.222" "c9" "trig" "bkt" 2).1 = ⟨500, internalErrorBody⟩ ∧
    (actions_lambda_handler false [] "adjust_conditions" "U1" "C01"
        "111.222" "c9" "trig" "bkt" 2).1 = ⟨200, "Action processed"⟩ ∧
    (actions_lambda_handler false [] "push_to_planner" "U1" "C01"
        "111.222" "c9" "trig" "bkt" 2).1 = ⟨200, "Action processed"⟩ ∧
    (actions_lambda_handler false [] "remind_later" "U1" "C01"
        "111.222" "c9" "trig" "bkt" 2).1 = ⟨200, "Action processed"⟩ ∧
    (actions_lambda_handler false [] "complete_data" "U1" "C01"
        "111.222" "c9" "trig" "bkt" 2).1 = ⟨200, "Action processed"⟩ :=
  ⟨rfl, rfl, rfl, rfl, rfl, rfl, rfl, rfl, rfl, rfl, rfl⟩

/-- C4.  update_case_status never returns its documented boolean: on
every input it raises NameError (the method body resolves the unbound
name log both after a successful write and inside the except ClientError
clause), so it neither returns false for a missing row or a failed write
nor true for an applied one; the successful UPDATE itself does persist
before the exception, as the concrete instances show. -/
theorem C4_theorem :
    (∀ (dbFail : Bool) (s : Store) (cid st uid : String) (now : Nat),
        (update_case_status dbFail s cid st uid now).1
          = Except.error PyExc.nameError) ∧
    (update_case_status false [sampleRow] "c1" "confirmed" "U1" 2).2
      = [sampleRowConfirmed] ∧
    (update_case_status true [sampleRow] "c1" "confirmed" "U1" 2).2
      = [sampleRow] :=
  ⟨fun dbFail _ _ _ _ _ => by cases dbFail <;> rfl, rfl, rfl⟩

/-- C6, counterexample.  transform_slack_message does not raise on a
payload with no event object — it returns the normalized default payload
— and it can raise on a payload that does contain an event object (here:
a files field that is not iterable), so the claimed equivalence fails in
both directions. -/
theorem C6_counterexample :
    transform_slack_message 0 0 (PyVal.pydict []) = Except.ok noEventPayload ∧
    transform_slack_message 0 0
        (PyVal.pydict [("event", PyVal.pydict [("files", PyVal.pynone)])])
      = Except.error PyExc.typeError :=
  ⟨rfl, rfl⟩

/-- C6, amended.  For every inbound payload whose event key is absent,
transform_slack_message returns (never raises) the normalized request
built from empty defaults; it raises only when a present field has an
unexpected type. -/
theorem C6_amended (k0 k1 : Nat) (kvs : List (String × PyVal))
    (h : pyLookup kvs "event" = none) :
    transform_slack_message k0 k1 (PyVal.pydict kvs)
      = Except.ok noEventPayload := by
  unfold transform_slack_message
  rw [show pyGet (PyVal.pydict kvs) "event" (PyVal.pydict [])
        = Except.ok (PyVal.pydict []) from by simp [pyGet, h]]
  rfl

/-- C6, witness for the amended theorem: a concrete payload without an
event object. -/
theorem C6_amended_witness :
    pyLookup [("type", PyVal.pystr "event_callback")] "event" = none ∧
    transform_slack_message 0 0
        (PyVal.pydict [("type", PyVal.pystr "event_callback")])
      = Except.ok noEventPayload :=
  ⟨rfl, C6_amended 0 0 [("type", PyVal.pystr "event_callback")] rfl⟩

/-- C7, counterexample.  The client-id fallback is not stable across
evaluations in different interpreter processes: the same text
"hello world" (matching none of the three patterns) extracts to
different client_(n) values under two different per-process hash keys,
because CPython salts str hashing with a per-process random secret. -/
theorem C7_counterexample :
    extract_client_id 0 0 "hello world" ≠ extract_client_id 0 1 "hello world" := by
  decide

/-- C7, amended.  Extraction is a pure function of the hash key and the
text — within one process (one key) the same text always yields the same
result — and whenever the regex extraction is falsy the result is the
fallback client_(hash(text) mod 10000) with the residue in [0, 10000);
stability does not extend across processes with different keys. -/
theorem C7_amended (k0 k1 : Nat) (t : String)
    (h : pyTruthyOptStr (extract_client_id_with_regex t) = false) :
    extract_client_id k0 k1 t
        = "client_" ++ toString ((pyHashStr k0 k1 t).emod 10000) ∧
    0 ≤ (pyHashStr k0 k1 t).emod 10000 ∧
    (pyHashStr k0 k1 t).emod 10000 < 10000 := by
  refine ⟨?_, Int.emod_nonneg _ (by norm_num), Int.emod_lt_of_pos _ (by norm_num)⟩
  have hnone : pyTruthyOptStr none = false := rfl
  unfold extract_client_id
  simp [extract_client_id_with_nlp, hnone, h]

/-- C7, witness for the amended theorem at the pattern-free text. -/
theorem C7_amended_witness :
    pyTruthyOptStr (extract_client_id_with_regex "hello world") = false ∧
    (extract_client_id 0 0 "hello world"
        = "client_" ++ toString ((pyHashStr 0 0 "hello world").emod 10000) ∧
     0 ≤ (pyHashStr 0 0 "hello world").emod 10000 ∧
     (pyHashStr 0 0 "hello world").emod 10000 < 10000) :=
  ⟨by decide, C7_amended 0 0 "hello world" (by decide)⟩

/-- C8.  Extraction order and results: the NLP path always returns None;
the regex patterns are tried in source order with the first match
winning (a pattern-1 match decides the result, pattern 2 is consulted
only after pattern 1 fails, and so on); when no pattern matches the hash
fallback is used; and concretely "client: ABC Corp" extracts to
"ABC Corp" and "@handle123" to "handle123" under every hash key. -/
theorem C8_theorem :
    (∀ t, extract_client_id_with_nlp t = none) ∧
    (∀ t g, re_search ClientPattern.pat1 t = some g →
        extract_client_id_with_regex t = some (pyStrip g)) ∧
    (∀ t, re_search ClientPattern.pat1 t = none →
        extract_client_id_with_regex t
          = regex_loop [ClientPattern.pat2, ClientPattern.pat3] t) ∧
    (∀ t g, re_search ClientPattern.pat1 t = none →
        re_search ClientPattern.pat2 t = some g →
        extract_client_id_with_regex t = some (pyStrip g)) ∧
    (∀ k0 k1 t, extract_client_id_with_regex t = none →
        extract_client_id k0 k1 t
          = "client_" ++ toString ((pyHashStr k0 k1 t).emod 10000)) ∧
    (∀ k0 k1, extract_client_id k0 k1 "client: ABC Corp" = "ABC Corp") ∧
    (∀ k0 k1, extract_client_id k0 k1 "@handle123" = "handle123") := by
  refine ⟨fun _ => rfl, ?_, ?_, ?_, ?_, fun _ _ => rfl, fun _ _ => rfl⟩
  · intro t g h
    simp [extract_client_id_with_regex, client_patterns, regex_loop, h]
  · intro t h
    simp [extract_client_id_with_regex, client_patterns, regex_loop, h]
  · intro t g h1 h2
    simp [extract_client_id_with_regex, client_patterns, regex_loop, h1, h2]
  · intro k0 k1 t h
    have hnone : pyTruthyOptStr none = false := rfl
    unfold extract_client_id
    simp [extract_client_id_with_nlp, hnone, h]

/-- C8, witness: the priority and fallback clauses instantiated at
concrete texts. -/
theorem C8_witness :
    re_search ClientPattern.pat1 "client: ABC Corp" = some "ABC Corp" ∧
    extract_client_id_with_regex "client: ABC Corp" = some (pyStrip "ABC Corp") ∧
    re_search ClientPattern.pat1 "@handle123" = none ∧
    re_search ClientPattern.pat2 "@handle123" = some "handle123" ∧
    extract_client_id_with_regex "@handle123" = some (pyStrip "handle123") ∧
    extract_client_id_with_regex "hello world" = none ∧
    extract_client_id 7 9 "hello world"
      = "client_" ++ toString ((pyHashStr 7 9 "hello world").emod 10000) :=
  ⟨by decide,
   C8_theorem.2.1 "client: ABC Corp" "ABC Corp" (by decide),
   by decide, by decide,
   C8_theorem.2.2.2.1 "@handle123" "handle123" (by decide) (by decide),
   by decide,
   C8_theorem.2.2.2.2.1 7 9 "hello world" (by decide)⟩

/- ===========================================================
   Development lemmas on the signature verifier.  The provable
   clauses of the spec's verifier property are settled here; the
   universal one-byte-sensitivity clause is equivalent to the absence
   of single-byte-variant collisions of HMAC-SHA256 and is neither
   provable nor refutable.
   =========================================================== -/

/-- Round-trip: for every secret, body and non-empty timestamp, the
signature recomputed with the same secret verifies. -/
theorem verify_signature_roundtrip (secret body ts : String) (h : ts ≠ "") :
    verify_signature secret body (some ts)
      (some ("v0=" ++ hexDigest (hmacSha256 (utf8Bytes secret)
        (utf8Bytes ("v0:" ++ ts ++ ":" ++ body))))) = true := by
  have hts : (ts == "") = false := by
    simp [h]
  have hne : ("v0=" ++ hexDigest (hmacSha256 (utf8Bytes secret)
      (utf8Bytes ("v0:" ++ ts ++ ":" ++ body)))) ≠ "" := by
    intro habs
    have hdata := congrArg String.data habs
    simp [String.data_append] at hdata
  have hsig : (("v0=" ++ hexDigest (hmacSha256 (utf8Bytes secret)
      (utf8Bytes ("v0:" ++ ts ++ ":" ++ body)))) == "") = false := by
    simp [hne]
  unfold verify_signature
  simp [hts, hsig]

/-- Missing timestamp or signature header yields false (never an
exception). -/
theorem verify_signature_missing_headers (secret body : String)
    (hdr : Option String) :
    verify_signature secret body none hdr = false ∧
    verify_signature secret body hdr none = false := by
  constructor
  · rfl
  · unfold verify_signature
    cases hdr with
    | none => rfl
    | some t => simp

set_option maxRecDepth 100000 in
/-- A concrete sensitivity instance: the signature computed for body
"payloadA" verifies for "payloadA" and fails for "payloadB" (one byte
altered), under a fixed secret and timestamp. -/
theorem verify_signature_one_byte_instance :
    verify_signature "s3cr3t" "payloadA" (some "1699382400")
        (some ("v0=" ++ hexDigest (hmacSha256 (utf8Bytes "s3cr3t")
          (utf8Bytes ("v0:" ++ "1699382400" ++ ":" ++ "payloadA"))))) = true ∧
    verify_signature "s3cr3t" "payloadB" (some "1699382400")
        (some ("v0=" ++ hexDigest (hmacSha256 (utf8Bytes "s3cr3t")
          (utf8Bytes ("v0:" ++ "1699382400" ++ ":" ++ "payloadA"))))) = false := by
  constructor
  · exact verify_signature_roundtrip "s3cr3t" "payloadA" "1699382400" (by decide)
  · decide
